import Mathlib

/-!
# Verification of the Mercado Livre finder extraction pipeline

A shallow embedding of `src/server.js`: the per-item field extraction of the
`GET /search` handler, the readiness probe `waitForPageReady`, the overlay
dismisser `handlePopupsAndOverlays`, and the handler's response logic.

Strings are modelled as Lean `String` (a list of characters); JavaScript
string truthiness (`""` and `undefined` are falsy) is made explicit; element
attributes that may be absent (`attr(..)` returning `undefined`) are
`Option String`; numbers produced by `parseFloat` are modelled as `Option ℚ`
where `none` stands for `NaN`.
-/

namespace MLFinder

/-- JavaScript `a || b` on strings: the empty string is falsy. -/
def jsOrStr (a b : String) : String :=
  if a = "" then b else a

/-- JavaScript `a || b` where `a` may be `undefined` (`none`) or an empty
string; both are falsy and fall through to `b`. -/
def jsOr (a b : Option String) : Option String :=
  match a with
  | none => b
  | some s => if s = "" then b else some s

/-- JavaScript string truthiness for a possibly-`undefined` string. -/
def optTruthy : Option String → Bool
  | none => false
  | some s => !(s == "")

/-- JavaScript `String.prototype.trim`: strip whitespace from both ends. -/
def jsTrim (s : String) : String :=
  ⟨((s.data.dropWhile Char.isWhitespace).reverse.dropWhile Char.isWhitespace).reverse⟩

/-- JavaScript `s.substring(0, n)`: the first `n` characters of `s`. -/
def jsSubstring (s : String) (n : Nat) : String :=
  ⟨s.data.take n⟩

/-- `text.replace(/\./g, '').replace(/,/g, '')`: remove every dot and comma. -/
def stripGrouping (s : String) : String :=
  ⟨s.data.filter (fun c => !(c == '.') && !(c == ','))⟩

/-- Value of a list of decimal digit characters, most significant first. -/
def digitsToNat (l : List Char) : Nat :=
  l.foldl (fun a c => 10 * a + (c.toNat - 48)) 0

/-- Optional leading sign of a numeric literal, as `parseFloat` reads it. -/
def parseSign (cs : List Char) : ℚ × List Char :=
  match cs with
  | [] => (1, [])
  | c :: r => if c = '-' then (-1, r) else if c = '+' then (1, r) else (1, c :: r)

/-- Optional exponent suffix (`e`/`E`, optional sign, digits) of a numeric
literal; an incomplete exponent (no digits) is ignored, as `parseFloat`
only consumes the longest valid prefix. -/
def parseExp (cs : List Char) : Int :=
  if cs.head? = some 'e' ∨ cs.head? = some 'E' then
    let r := cs.tail
    let sgn : Int := if r.head? = some '-' then -1 else 1
    let r2 := if r.head? = some '-' ∨ r.head? = some '+' then r.tail else r
    let ds := r2.takeWhile Char.isDigit
    if ds = [] then 0 else sgn * (digitsToNat ds : Int)
  else 0

/-- JavaScript `parseFloat` on a character list: skip leading whitespace,
optional sign, integer digits, optional `.` and fraction digits, optional
exponent; `none` (`NaN`) when no digit is found. (The `Infinity` literal is
not modelled: it cannot arise from the digit-bearing price markup.) -/
def parseFloatCore (l : List Char) : Option ℚ :=
  let cs0 := l.dropWhile Char.isWhitespace
  let sp := parseSign cs0
  let intDs := sp.2.takeWhile Char.isDigit
  let rest := sp.2.dropWhile Char.isDigit
  let fracDs := if rest.head? = some '.' then rest.tail.takeWhile Char.isDigit else []
  let rest2 := if rest.head? = some '.' then rest.tail.dropWhile Char.isDigit else rest
  if intDs = [] ∧ fracDs = [] then none
  else some (sp.1 * ((digitsToNat intDs : ℚ) + (digitsToNat fracDs : ℚ) / (10 : ℚ) ^ fracDs.length)
    * (10 : ℚ) ^ parseExp rest2)

/-- JavaScript `parseFloat` on a string. -/
def parseFloatQ (s : String) : Option ℚ :=
  parseFloatCore s.data

/-- JavaScript `s.startsWith(p)` on character lists. -/
def startsWithList : List Char → List Char → Bool
  | _, [] => true
  | [], _ :: _ => false
  | c :: cs, d :: ds => c == d && startsWithList cs ds

/-- JavaScript `s.startsWith(p)`. -/
def strStartsWith (s p : String) : Bool :=
  startsWithList s.data p.data

/-- The canonical site origin prefixed to relative permalinks
(`https://www.mercadolivre.com.br`). -/
def mlOrigin : String := "https://www.mercadolivre.com.br"

/-- `if (permalink && !permalink.startsWith('http')) permalink =
`https://www.mercadolivre.com.br${permalink}`` — rewrite a truthy link that
does not start with `http` to an absolute URL; falsy links are untouched. -/
def normalizeLink (permalink : Option String) : Option String :=
  match permalink with
  | none => none
  | some s => if s ≠ "" ∧ strStartsWith s "http" = false then some (mlOrigin ++ s) else some s

/-- What the DOM queries of the per-item extraction observe on one
`.ui-search-layout__item` node: the text of each title selector, the two
price sub-element texts, the `href` of each link selector and the image
attributes (`none` = attribute/element absent, so `attr` is `undefined`). -/
structure ItemFields where
  /-- `.ui-search-item--ad` matched (`find(..).length > 0`). -/
  sponsored : Bool
  /-- text of `a.poly-component__title`. -/
  titlePolyA : String
  /-- text of `.poly-component__title-wrapper a`. -/
  titleWrapperA : String
  /-- text of `.ui-search-item__title`. -/
  titleUiSearch : String
  /-- text of `h3 a`. -/
  titleH3A : String
  /-- text of `h2 a`. -/
  titleH2A : String
  /-- text of the first `.andes-money-amount__fraction`. -/
  fractionText : String
  /-- text of the first `.andes-money-amount__cents`. -/
  centsText : String
  /-- `href` of `a.poly-component__title`. -/
  hrefPolyA : Option String
  /-- `href` of `.poly-component__title-wrapper a`. -/
  hrefWrapperA : Option String
  /-- `href` of `a.ui-search-link`. -/
  hrefUiSearchLink : Option String
  /-- `href` of `a[href*="/MLB"]`. -/
  hrefMLB : Option String
  /-- `data-src` of `img.ui-search-result-image__element`. -/
  imgDataSrc : Option String
  /-- `src` of `img.ui-search-result-image__element`. -/
  imgSrc : Option String
  /-- `data-src` of `img`. -/
  anyImgDataSrc : Option String
  /-- `src` of `img`. -/
  anyImgSrc : Option String
deriving DecidableEq

/-- Title fallback chain: five selectors, each `.text().trim()`, joined by
JavaScript `||` (first non-empty wins). -/
def resolveTitle (f : ItemFields) : String :=
  jsOrStr (jsTrim f.titlePolyA)
    (jsOrStr (jsTrim f.titleWrapperA)
      (jsOrStr (jsTrim f.titleUiSearch)
        (jsOrStr (jsTrim f.titleH3A) (jsTrim f.titleH2A))))

/-- Price from the two sub-element texts: strip grouping punctuation from the
integer part, default the cents text to `"00"` when empty, and when the
stripped integer part is non-empty parse `integer.cents` with `parseFloat`;
otherwise the price stays `0`. -/
def resolvePriceTexts (ft ct : String) : Option ℚ :=
  let priceFraction := stripGrouping ft
  let priceCents := jsOrStr ct "00"
  if priceFraction = "" then some 0 else parseFloatQ (priceFraction ++ "." ++ priceCents)

/-- Price of an item node. -/
def resolvePrice (f : ItemFields) : Option ℚ :=
  resolvePriceTexts f.fractionText f.centsText

/-- Permalink fallback chain (before absolute-URL normalization). -/
def resolvePermalink (f : ItemFields) : Option String :=
  jsOr f.hrefPolyA (jsOr f.hrefWrapperA (jsOr f.hrefUiSearchLink f.hrefMLB))

/-- Thumbnail fallback chain: deferred-load attribute first, then `src`, then
the generic image selector's attributes. -/
def resolveThumbnail (f : ItemFields) : Option String :=
  jsOr f.imgDataSrc (jsOr f.imgSrc (jsOr f.anyImgDataSrc f.anyImgSrc))

/-- JavaScript `price > 0` where the price may be `NaN` (`none`):
`NaN > 0` is false. -/
def pricePos : Option ℚ → Bool
  | none => false
  | some p => decide (0 < p)

/-- A validated product record as pushed onto the output array. -/
structure Product where
  title : String
  price : ℚ
  permalink : String
  thumbnail : String
deriving DecidableEq

/-- One iteration of the extraction loop on a non-throwing item node:
skip sponsored items, resolve the four fields through their fallback
chains, and push a record exactly when the JavaScript condition
`title && price > 0 && permalink && thumbnail` holds, capping the title
with `substring(0, 200)`. -/
def extractFields (f : ItemFields) : Option Product :=
  if f.sponsored then none
  else if resolveTitle f ≠ "" ∧ pricePos (resolvePrice f) = true ∧
      optTruthy (normalizeLink (resolvePermalink f)) = true ∧
      optTruthy (resolveThumbnail f) = true then
    some { title := jsSubstring (resolveTitle f) 200
           price := (resolvePrice f).getD 0
           permalink := (normalizeLink (resolvePermalink f)).getD ""
           thumbnail := (resolveThumbnail f).getD "" }
  else none

/-- An item node as seen by the extraction loop: either its field resolution
succeeds with the observed `ItemFields`, or touching it throws (a malformed
node). -/
inductive ItemNode where
  | node (f : ItemFields)
  | raises (msg : String)
deriving DecidableEq

/-- Evaluate the body of the per-item `try` block: a malformed node throws. -/
def evalItem : ItemNode → Except String (Option Product)
  | .node f => .ok (extractFields f)
  | .raises msg => .error msg

/-- The per-item outcome after the surrounding `catch`: a thrown error is
logged and becomes a skip. -/
def processItem (i : ItemNode) : Option Product :=
  match evalItem i with
  | .error _ => none
  | .ok r => r

/-- The `$('.ui-search-layout__item').each(..)` loop: each item is processed
inside `try`/`catch` and a validated record is appended to the accumulator. -/
def extractLoop : List ItemNode → List Product → List Product
  | [], acc => acc
  | i :: rest, acc =>
    match evalItem i with
    | .error _ => extractLoop rest acc
    | .ok none => extractLoop rest acc
    | .ok (some p) => extractLoop rest (acc ++ [p])

/-- The extraction pass: run the loop starting from the empty `products`
array. -/
def extractProducts (items : List ItemNode) : List Product :=
  extractLoop items []

/-! ## Readiness probe (`waitForPageReady`) -/

/-- What one probe attempt observes: the container wait may time out, then
the item wait may time out, otherwise the attempt counts the
`.ui-search-layout__item` nodes. -/
inductive AttemptOutcome where
  | containerTimeout
  | itemTimeout
  | itemCount (n : Nat)
deriving DecidableEq

/-- `'ol.ui-search-layout'`. -/
def resultsContainerSelector : String := "ol.ui-search-layout"

/-- `'.ui-search-layout__item'`. -/
def itemSelector : String := ".ui-search-layout__item"

/-- Per-attempt container-wait timeout (`{ timeout: 30000 }`). -/
def containerWaitMs : Nat := 30000

/-- Per-attempt item-wait timeout (`{ timeout: 10000 }`). -/
def itemWaitMs : Nat := 10000

/-- Delay after a populated-check failure (`setTimeout(resolve, 2000)`). -/
def noProductsDelayMs : Nat := 2000

/-- Delay after a caught timeout before the next attempt
(`setTimeout(resolve, 3000)`). -/
def retryDelayMs : Nat := 3000

/-- The message of the error thrown after the final attempt. -/
def probeFailMsg : String := "Failed to load search results after multiple attempts"

instance : DecidableEq (Except String Nat) := fun a b =>
  match a, b with
  | .error x, .error y => decidable_of_iff (x = y) (by simp)
  | .ok x, .ok y => decidable_of_iff (x = y) (by simp)
  | .error _, .ok _ => .isFalse (by simp)
  | .ok _, .error _ => .isFalse (by simp)

/-- Observable trace of one `waitForPageReady` run: its outcome (`ok k` means
it returned `true` during attempt `k`; `error` is the thrown message), the
number of attempts executed, the selector waits issued with their timeouts,
and the sleeps taken between attempts. -/
structure ProbeTrace where
  result : Except String Nat
  attempts : Nat
  waits : List (String × Nat)
  delays : List Nat
deriving DecidableEq

/-- The waits one attempt issues: the container wait always, the item wait
only once the container wait succeeded. -/
def attemptWaits (o : AttemptOutcome) : List (String × Nat) :=
  match o with
  | .containerTimeout => [(resultsContainerSelector, containerWaitMs)]
  | _ => [(resultsContainerSelector, containerWaitMs), (itemSelector, itemWaitMs)]

/-- The `for (let attempt = 1; attempt <= maxAttempts; attempt++)` loop of
`waitForPageReady`, with `remaining` the number of attempts still allowed
(`remaining = 0` is loop exit, where the fatal error is thrown). A positive
item count returns `true`; a zero count sleeps 2000ms and retries; a caught
timeout sleeps 3000ms, but only when this was not the last attempt. -/
def probeLoop (env : Nat → AttemptOutcome) : Nat → Nat → ProbeTrace
  | _, 0 => { result := .error probeFailMsg, attempts := 0, waits := [], delays := [] }
  | attempt, r + 1 =>
    match env attempt with
    | .itemCount (n + 1) =>
      { result := .ok attempt, attempts := 1,
        waits := attemptWaits (.itemCount (n + 1)), delays := [] }
    | .itemCount 0 =>
      let t := probeLoop env (attempt + 1) r
      { result := t.result, attempts := t.attempts + 1,
        waits := attemptWaits (.itemCount 0) ++ t.waits,
        delays := noProductsDelayMs :: t.delays }
    | .containerTimeout =>
      let t := probeLoop env (attempt + 1) r
      { result := t.result, attempts := t.attempts + 1,
        waits := attemptWaits .containerTimeout ++ t.waits,
        delays := (if 0 < r then [retryDelayMs] else []) ++ t.delays }
    | .itemTimeout =>
      let t := probeLoop env (attempt + 1) r
      { result := t.result, attempts := t.attempts + 1,
        waits := attemptWaits .itemTimeout ++ t.waits,
        delays := (if 0 < r then [retryDelayMs] else []) ++ t.delays }

/-- `waitForPageReady(page, maxAttempts = 3)` over an environment giving the
outcome each attempt would observe. -/
def waitForPageReady (env : Nat → AttemptOutcome) (maxAttempts : Nat := 3) : ProbeTrace :=
  probeLoop env 1 maxAttempts

/-- The item count an attempt observed (timeouts observe no items). -/
def itemsFound : AttemptOutcome → Nat
  | .itemCount n => n
  | _ => 0

/-! ## Overlay dismisser (`handlePopupsAndOverlays`) -/

/-- What `page.$(selector)` followed by the visibility check yields for one
selector: the query may throw (e.g. the non-standard `:contains` selectors),
match nothing, match a hidden element, or match a visible element (which is
then clicked). -/
inductive SelResult where
  | error
  | noMatch
  | hidden
  | visible
deriving DecidableEq

/-- A live page abstracted as oracles for the two kinds of queries the
dismisser makes: a CSS-selector query, and the text-pass search for a
visible button whose text contains the given label. -/
structure PageOracle where
  selQuery : String → SelResult
  textButtonVisible : String → Bool

/-- The `popupSelectors` catalog, in source order. -/
def popupSelectors : List String :=
  [ "button[data-testid=\"action:understood-button\"]",
    "button[data-testid=\"cookie-consent-banner-opt-out\"]",
    ".cookie-consent-banner-opt-out",
    "button[data-testid=\"modal-close-button\"]",
    ".andes-modal__close",
    "button[aria-label=\"Cerrar\"]",
    "button[aria-label=\"Close\"]",
    ".onboarding-cp-wrapper button",
    "button[data-testid=\"onboarding-cp-understand\"]",
    "button[class*=\"close\"]",
    "[data-testid*=\"close\"]",
    ".ui-modal-close",
    "button[data-testid=\"action:modal-close\"]",
    ".shipping-location button",
    "button:contains(\"Entendi\")",
    "button:contains(\"OK\")",
    "button:contains(\"Fechar\")",
    "button:contains(\"Cerrar\")",
    ".andes-modal-overlay",
    ".ui-modal-overlay" ]

/-- The `textBasedSelectors` vocabulary of affirmative button labels. -/
def textVocabulary : List String :=
  ["Entendi", "OK", "Fechar", "Aceitar", "Continuar"]

/-- The selector pass: for each catalog selector whose query finds a visible
element, click it and increment `popupsFound`; errors and non-visible
results are skipped. Returns the number of clicks (= the increment count). -/
def selectorLoop (p : PageOracle) : List String → Nat
  | [] => 0
  | s :: rest =>
    (if p.selQuery s = SelResult.visible then 1 else 0) + selectorLoop p rest

/-- The text pass: for each vocabulary entry with a visible matching button,
`page.evaluate` clicks it; `popupsFound` is not touched. Returns the number
of clicks. -/
def textLoop (p : PageOracle) : List String → Nat
  | [] => 0
  | t :: rest =>
    (if p.textButtonVisible t then 1 else 0) + textLoop p rest

/-- Observable outcome of one dismisser run: the value it returns
(`popupsFound`) and the total number of elements it actually clicked
(dismissed) across both passes. -/
structure DismisserRun where
  popupsFound : Nat
  clicks : Nat
deriving DecidableEq

/-- `handlePopupsAndOverlays(page)`: selector pass, then text pass; the
returned value is the `popupsFound` counter, which only the selector pass
increments. -/
def handlePopupsAndOverlays (p : PageOracle) : DismisserRun :=
  let found := selectorLoop p popupSelectors
  let textClicks := textLoop p textVocabulary
  { popupsFound := found, clicks := found + textClicks }

/-! ## The `GET /search` handler -/

/-- `details:` of the 500 body: the error message only when
`process.env.NODE_ENV === 'development'`, else `'Check server logs'`. -/
def errorDetails (nodeEnv : Option String) (msg : String) : String :=
  if nodeEnv = some "development" then msg else "Check server logs"

/-- `'An internal server error occurred during scraping.'`. -/
def internalErrMsg : String := "An internal server error occurred during scraping."

/-- The three response shapes of the `/search` route. -/
inductive SearchResponse where
  | clientError (status : Nat) (error : String)
  | okJson (products : List Product)
  | serverError (status : Nat) (error : String) (details : String)
deriving DecidableEq

/-- The request environment the handler runs against: whether browser
launch/navigation throws, what each readiness-probe attempt observes, the
item nodes of the rendered page, and `process.env.NODE_ENV`. -/
structure ScrapeEnv where
  navError : Option String
  probe : Nat → AttemptOutcome
  items : List ItemNode
  nodeEnv : Option String

/-- The handler's observable outcome: its response and whether a browser
was launched (navigation attempted). -/
structure HandlerResult where
  response : SearchResponse
  browserLaunched : Bool

/-- JavaScript truthiness of `req.query.q` (`undefined` or `""` is falsy). -/
def queryTruthy : Option String → Bool
  | none => false
  | some s => !(s == "")

/-- The `GET /search` handler: reject a falsy `q` with a 400 before any
browser work; otherwise launch and navigate (which may throw), run the
readiness probe (whose thrown error the surrounding `catch` also maps to a
500 with environment-gated details), and on readiness extract and return
the product array (possibly empty). -/
def handleSearch (q : Option String) (env : ScrapeEnv) : HandlerResult :=
  if queryTruthy q = false then
    { response := .clientError 400 "Search query parameter \"q\" is required.",
      browserLaunched := false }
  else
    match env.navError with
    | some m =>
      { response := .serverError 500 internalErrMsg (errorDetails env.nodeEnv m),
        browserLaunched := true }
    | none =>
      match (waitForPageReady env.probe).result with
      | .error m =>
        { response := .serverError 500 internalErrMsg (errorDetails env.nodeEnv m),
          browserLaunched := true }
      | .ok _ =>
        { response := .okJson (extractProducts env.items), browserLaunched := true }

/-! ## Concrete example inputs used by the theorems below -/

/-- A well-formed non-sponsored item node observation. -/
def sampleFields : ItemFields :=
  { sponsored := false
    titlePolyA := " Smart TV 50 "
    titleWrapperA := ""
    titleUiSearch := ""
    titleH3A := ""
    titleH2A := ""
    fractionText := "1.234"
    centsText := "56"
    hrefPolyA := some "/MLB-123-smart-tv"
    hrefWrapperA := none
    hrefUiSearchLink := none
    hrefMLB := none
    imgDataSrc := some "https://http2.mlstatic.com/tv.jpg"
    imgSrc := none
    anyImgDataSrc := none
    anyImgSrc := none }

/-- `sampleFields` with the sponsored/ad marker present. -/
def sponsoredFields : ItemFields :=
  { sampleFields with sponsored := true }

/-- A page with no selector-matched overlay but one visible button whose text
matches the affirmative vocabulary entry `"Entendi"`. -/
def textOnlyPage : PageOracle :=
  { selQuery := fun _ => SelResult.noMatch
    textButtonVisible := fun t => t == "Entendi" }

/-- A request environment whose navigation throws `"boom"` under
`NODE_ENV = "test"` (a non-production environment). -/
def testEnvBoom : ScrapeEnv :=
  { navError := some "boom"
    probe := fun _ => AttemptOutcome.itemCount 0
    items := []
    nodeEnv := some "test" }

/-- A request environment whose readiness probe never sees an item. -/
def emptyPageEnv : ScrapeEnv :=
  { navError := none
    probe := fun _ => AttemptOutcome.itemCount 0
    items := [ItemNode.node sampleFields]
    nodeEnv := none }

/-- A probe environment that observes items for the first time on
attempt 2. -/
def secondTryProbe : Nat → AttemptOutcome :=
  fun j => if j = 2 then AttemptOutcome.itemCount 5 else AttemptOutcome.itemCount 0

/-! ## Helper lemmas -/

theorem str_eq_empty_iff (s : String) : s = "" ↔ s.data = [] := by
  rw [String.ext_iff]

theorem str_data_append (s t : String) : (s ++ t).data = s.data ++ t.data := by
  cases s
  cases t
  rfl

theorem digit_not_whitespace {c : Char} (h : c.isDigit = true) : c.isWhitespace = false := by
  cases hws : c.isWhitespace
  · rfl
  · exfalso
    have hw := hws
    simp [Char.isWhitespace] at hw
    rcases hw with ((h1 | h1) | h1) | h1 <;> subst h1 <;> exact absurd h (by decide)

theorem digit_ne {c d : Char} (h : c.isDigit = true) (hd : d.isDigit = false) : c ≠ d := by
  intro he
  subst he
  rw [h] at hd
  exact absurd hd (by simp)

theorem takeWhile_all {α : Type} (p : α → Bool) (l : List α) (h : ∀ c ∈ l, p c = true) :
    l.takeWhile p = l := by
  induction l with
  | nil => rfl
  | cons x t ih =>
    have hx := h x (by simp)
    simp [List.takeWhile_cons, hx, ih fun c hc => h c (by simp [hc])]

theorem dropWhile_all {α : Type} (p : α → Bool) (l : List α) (h : ∀ c ∈ l, p c = true) :
    l.dropWhile p = [] := by
  induction l with
  | nil => rfl
  | cons x t ih =>
    have hx := h x (by simp)
    simp [List.dropWhile_cons, hx, ih fun c hc => h c (by simp [hc])]

theorem takeWhile_append_stop {α : Type} (p : α → Bool) (a : List α) (c : α) (b : List α)
    (ha : ∀ x ∈ a, p x = true) (hc : p c = false) :
    (a ++ c :: b).takeWhile p = a := by
  induction a with
  | nil => simp [List.takeWhile_cons, hc]
  | cons x t ih =>
    have hx := ha x (by simp)
    simp [List.takeWhile_cons, hx, ih fun y hy => ha y (by simp [hy])]

theorem dropWhile_append_stop {α : Type} (p : α → Bool) (a : List α) (c : α) (b : List α)
    (ha : ∀ x ∈ a, p x = true) (hc : p c = false) :
    (a ++ c :: b).dropWhile p = c :: b := by
  induction a with
  | nil => simp [List.dropWhile_cons, hc]
  | cons x t ih =>
    have hx := ha x (by simp)
    simp [List.dropWhile_cons, hx, ih fun y hy => ha y (by simp [hy])]

theorem parseSign_digit {c : Char} (t : List Char) (hc : c.isDigit = true) :
    parseSign (c :: t) = (1, c :: t) := by
  have h1 : c ≠ '-' := digit_ne hc (by decide)
  have h2 : c ≠ '+' := digit_ne hc (by decide)
  simp [parseSign, h1, h2]

theorem parseExp_nil : parseExp [] = 0 := by
  simp [parseExp]

/-- `parseFloat` on a string of decimal digits, a dot, and more decimal
digits yields exactly the value of that decimal numeral. -/
theorem parseFloatCore_digits (a b : List Char) (ha : a ≠ [])
    (hda : ∀ c ∈ a, c.isDigit = true) (hdb : ∀ c ∈ b, c.isDigit = true) :
    parseFloatCore (a ++ '.' :: b) =
      some ((digitsToNat a : ℚ) + (digitsToNat b : ℚ) / (10 : ℚ) ^ b.length) := by
  obtain ⟨c, t, rfl⟩ : ∃ c t, a = c :: t := by
    cases a with
    | nil => exact absurd rfl ha
    | cons c t => exact ⟨c, t, rfl⟩
  have hc : c.isDigit = true := hda c (by simp)
  have hws : c.isWhitespace = false := digit_not_whitespace hc
  have hdot : ('.' : Char).isDigit = false := by decide
  rw [parseFloatCore]
  rw [show (c :: t ++ '.' :: b) = c :: (t ++ '.' :: b) from rfl]
  rw [List.dropWhile_cons, hws]
  simp only [Bool.false_eq_true, if_false]
  rw [parseSign_digit (t ++ '.' :: b) hc]
  rw [show (1, c :: (t ++ '.' :: b)).2 = (c :: t) ++ '.' :: b from rfl]
  rw [takeWhile_append_stop Char.isDigit (c :: t) '.' b hda hdot]
  rw [dropWhile_append_stop Char.isDigit (c :: t) '.' b hda hdot]
  simp only [List.head?_cons, List.tail_cons, if_pos rfl]
  rw [takeWhile_all Char.isDigit b hdb, dropWhile_all Char.isDigit b hdb]
  rw [if_neg (by simp)]
  simp only [ite_true, parseExp_nil]
  norm_num

/-- The composed `integer.cents` parse of the price texts, when the stripped
integer part and the (defaulted) cents text consist of decimal digits. -/
theorem resolvePriceTexts_digits (ft ct : String)
    (h1 : (stripGrouping ft).data ≠ [])
    (h2 : ∀ c ∈ (stripGrouping ft).data, c.isDigit = true)
    (h3 : ∀ c ∈ (jsOrStr ct "00").data, c.isDigit = true) :
    resolvePriceTexts ft ct =
      some ((digitsToNat (stripGrouping ft).data : ℚ) +
        (digitsToNat (jsOrStr ct "00").data : ℚ) / (10 : ℚ) ^ (jsOrStr ct "00").data.length) := by
  rw [resolvePriceTexts]
  rw [if_neg (fun he => h1 ((str_eq_empty_iff _).mp he))]
  rw [parseFloatQ, str_data_append, str_data_append]
  rw [show ("." : String).data = ['.'] from rfl]
  rw [List.append_assoc]
  rw [show (['.'] ++ (jsOrStr ct "00").data) = '.' :: (jsOrStr ct "00").data from rfl]
  exact parseFloatCore_digits _ _ h1 h2 h3

theorem pricePos_iff (o : Option ℚ) : pricePos o = true ↔ ∃ p, o = some p ∧ 0 < p := by
  cases o with
  | none => simp [pricePos]
  | some p => simp [pricePos]

theorem optTruthy_iff (o : Option String) : optTruthy o = true ↔ ∃ s, o = some s ∧ s ≠ "" := by
  cases o with
  | none => simp [optTruthy]
  | some s => simp [optTruthy]

theorem jsSubstring_length_le (s : String) (n : Nat) : (jsSubstring s n).length ≤ n := by
  show (s.data.take n).length ≤ n
  rw [List.length_take]
  exact min_le_left _ _

theorem extractLoop_eq_filterMap (items : List ItemNode) (acc : List Product) :
    extractLoop items acc = acc ++ items.filterMap processItem := by
  induction items generalizing acc with
  | nil => simp [extractLoop]
  | cons i rest ih =>
    cases h : evalItem i with
    | error m => simp [extractLoop, h, processItem, ih]
    | ok r =>
      cases r with
      | none => simp [extractLoop, h, processItem, ih]
      | some p => simp [extractLoop, h, processItem, ih]

theorem extractProducts_eq_filterMap (items : List ItemNode) :
    extractProducts items = items.filterMap processItem := by
  rw [extractProducts, extractLoop_eq_filterMap]
  simp

theorem extractProducts_append (xs ys : List ItemNode) :
    extractProducts (xs ++ ys) = extractProducts xs ++ extractProducts ys := by
  simp [extractProducts_eq_filterMap]

theorem selectorLoop_eq_countP (p : PageOracle) (l : List String) :
    selectorLoop p l = l.countP (fun s => p.selQuery s == SelResult.visible) := by
  induction l with
  | nil => rfl
  | cons s rest ih =>
    rw [selectorLoop, ih, List.countP_cons]
    by_cases h : p.selQuery s = SelResult.visible
    · simp [h]
      omega
    · simp [h]

theorem textLoop_eq_countP (p : PageOracle) (l : List String) :
    textLoop p l = l.countP (fun t => p.textButtonVisible t) := by
  induction l with
  | nil => rfl
  | cons t rest ih =>
    rw [textLoop, ih, List.countP_cons]
    by_cases h : p.textButtonVisible t
    · simp [h]
      omega
    · simp [h]

theorem attemptWaits_mem (o : AttemptOutcome) :
    ∀ w ∈ attemptWaits o,
      w = (resultsContainerSelector, containerWaitMs) ∨ w = (itemSelector, itemWaitMs) := by
  cases o <;> intro w hw <;> simp [attemptWaits] at hw <;> tauto

theorem probeLoop_attempts_le (env : Nat → AttemptOutcome) (r a : Nat) :
    (probeLoop env a r).attempts ≤ r := by
  induction r generalizing a with
  | zero => simp [probeLoop]
  | succ r ih =>
    cases hE : env a with
    | containerTimeout => simp only [probeLoop, hE]; exact Nat.succ_le_succ (ih (a + 1))
    | itemTimeout => simp only [probeLoop, hE]; exact Nat.succ_le_succ (ih (a + 1))
    | itemCount n =>
      cases n with
      | zero => simp only [probeLoop, hE]; exact Nat.succ_le_succ (ih (a + 1))
      | succ m => simp [probeLoop, hE]

theorem probeLoop_delays_mem (env : Nat → AttemptOutcome) (r a : Nat) :
    ∀ d ∈ (probeLoop env a r).delays, d = noProductsDelayMs ∨ d = retryDelayMs := by
  induction r generalizing a with
  | zero => simp [probeLoop]
  | succ r ih =>
    intro d hd
    cases hE : env a with
    | containerTimeout =>
      rw [probeLoop, hE] at hd
      simp only [List.mem_append] at hd
      rcases hd with hd | hd
      · right
        rcases Nat.decLt 0 r |>.em with h0 | h0
        all_goals simp [if_pos, if_neg, h0] at hd
        all_goals simp [hd]
      · exact ih (a + 1) d hd
    | itemTimeout =>
      rw [probeLoop, hE] at hd
      simp only [List.mem_append] at hd
      rcases hd with hd | hd
      · right
        rcases Nat.decLt 0 r |>.em with h0 | h0
        all_goals simp [if_pos, if_neg, h0] at hd
        all_goals simp [hd]
      · exact ih (a + 1) d hd
    | itemCount n =>
      cases n with
      | zero =>
        rw [probeLoop, hE] at hd
        simp only [List.mem_cons] at hd
        rcases hd with hd | hd
        · left; exact hd
        · exact ih (a + 1) d hd
      | succ m =>
        rw [probeLoop, hE] at hd
        simp at hd

theorem probeLoop_waits_mem (env : Nat → AttemptOutcome) (r a : Nat) :
    ∀ w ∈ (probeLoop env a r).waits,
      w = (resultsContainerSelector, containerWaitMs) ∨ w = (itemSelector, itemWaitMs) := by
  induction r generalizing a with
  | zero => simp [probeLoop]
  | succ r ih =>
    intro w hw
    cases hE : env a with
    | containerTimeout =>
      rw [probeLoop, hE] at hw
      simp only [List.mem_append] at hw
      rcases hw with hw | hw
      · exact attemptWaits_mem _ w hw
      · exact ih (a + 1) w hw
    | itemTimeout =>
      rw [probeLoop, hE] at hw
      simp only [List.mem_append] at hw
      rcases hw with hw | hw
      · exact attemptWaits_mem _ w hw
      · exact ih (a + 1) w hw
    | itemCount n =>
      cases n with
      | zero =>
        rw [probeLoop, hE] at hw
        simp only [List.mem_append] at hw
        rcases hw with hw | hw
        · exact attemptWaits_mem _ w hw
        · exact ih (a + 1) w hw
      | succ m =>
        simp only [probeLoop, hE] at hw
        exact attemptWaits_mem _ w hw

theorem probeLoop_fail (env : Nat → AttemptOutcome) (r a : Nat)
    (h : ∀ j, a ≤ j → j < a + r → itemsFound (env j) = 0) :
    (probeLoop env a r).result = Except.error probeFailMsg := by
  induction r generalizing a with
  | zero => rfl
  | succ r ih =>
    have hshift : ∀ j, a + 1 ≤ j → j < (a + 1) + r → itemsFound (env j) = 0 := by
      intro j h1 h2
      exact h j (by omega) (by omega)
    cases hE : env a with
    | containerTimeout => rw [probeLoop, hE]; exact ih (a + 1) hshift
    | itemTimeout => rw [probeLoop, hE]; exact ih (a + 1) hshift
    | itemCount n =>
      cases n with
      | zero => rw [probeLoop, hE]; exact ih (a + 1) hshift
      | succ m =>
        exfalso
        have := h a (by omega) (by omega)
        rw [hE] at this
        simp [itemsFound] at this

theorem probeLoop_success (env : Nat → AttemptOutcome) (r a k : Nat)
    (h1 : a ≤ k) (h2 : k < a + r) (h3 : 0 < itemsFound (env k))
    (h4 : ∀ j, a ≤ j → j < k → itemsFound (env j) = 0) :
    (probeLoop env a r).result = Except.ok k := by
  induction r generalizing a with
  | zero => omega
  | succ r ih =>
    rcases Nat.eq_or_lt_of_le h1 with heq | hlt
    · subst heq
      cases hE : env a with
      | containerTimeout => rw [hE] at h3; simp [itemsFound] at h3
      | itemTimeout => rw [hE] at h3; simp [itemsFound] at h3
      | itemCount n =>
        cases n with
        | zero => rw [hE] at h3; simp [itemsFound] at h3
        | succ m => rw [probeLoop, hE]
    · have hz : itemsFound (env a) = 0 := h4 a (by omega) hlt
      have hrec : (probeLoop env (a + 1) r).result = Except.ok k :=
        ih (a + 1) (by omega) (by omega) (fun j hj1 hj2 => h4 j (by omega) hj2)
      cases hE : env a with
      | containerTimeout => rw [probeLoop, hE]; exact hrec
      | itemTimeout => rw [probeLoop, hE]; exact hrec
      | itemCount n =>
        cases n with
        | zero => rw [probeLoop, hE]; exact hrec
        | succ m => rw [hE] at hz; simp [itemsFound] at hz

theorem startsWithList_cons_iff (l : List Char) (c : Char) (p : List Char) :
    startsWithList l (c :: p) = true ↔ ∃ t, l = c :: t ∧ startsWithList t p = true := by
  cases l with
  | nil =>
    simp [startsWithList]
  | cons a t =>
    simp only [startsWithList, Bool.and_eq_true, beq_iff_eq]
    constructor
    · rintro ⟨rfl, h⟩
      exact ⟨t, rfl, h⟩
    · rintro ⟨t', ht, h⟩
      injection ht with h1 h2
      subst h1
      subst h2
      exact ⟨rfl, h⟩

theorem startsWithList_nil_right (l : List Char) : startsWithList l [] = true := by
  cases l <;> rfl

theorem startsWithList_of_append (l p q : List Char)
    (h : startsWithList l (p ++ q) = true) : startsWithList l p = true := by
  induction p generalizing l with
  | nil => exact startsWithList_nil_right l
  | cons c p' ih =>
    rw [List.cons_append] at h
    obtain ⟨t, rfl, ht⟩ := (startsWithList_cons_iff _ _ _).mp h
    exact (startsWithList_cons_iff _ _ _).mpr ⟨t, rfl, ih t ht⟩

/-! ## Claim theorems -/

/-- **C10**: the extraction pass is an order-preserving filter-map — the
output array of the `$('.ui-search-layout__item').each(..)` loop is exactly
the filter-map of the per-item processing over the item nodes in container
order, so surviving records keep the relative order of their nodes, skipped
nodes are removed, and nothing is reordered or duplicated. -/
theorem C10_order_preserving_filter_map (items : List ItemNode) :
    extractProducts items = items.filterMap processItem := by
  exact extractProducts_eq_filterMap items

/-- **C8**: an exception raised while resolving the fields of a single item
is caught per item and converted into a skip — `processItem` yields no
record for a throwing node, and the pass over any surrounding list is
exactly the concatenation of the passes over the sibling sublists, so one
item's failure does not affect the records produced for its siblings. -/
theorem C8_per_item_failure_isolated (m : String) (xs ys : List ItemNode) :
    processItem (ItemNode.raises m) = none ∧
    extractProducts (xs ++ ItemNode.raises m :: ys) = extractProducts xs ++ extractProducts ys := by
  constructor
  · rfl
  · rw [extractProducts_eq_filterMap, List.filterMap_append, List.filterMap_cons]
    rw [show processItem (ItemNode.raises m) = none from rfl]
    rw [← extractProducts_eq_filterMap, ← extractProducts_eq_filterMap]

/-- **C7**: an item node carrying the sponsored/ad marker is skipped — its
field extraction yields no record, and no record for it appears in the
output array of any extraction pass containing it. -/
theorem C7_sponsored_skipped (f : ItemFields) (xs ys : List ItemNode)
    (h : f.sponsored = true) :
    extractFields f = none ∧
    extractProducts (xs ++ ItemNode.node f :: ys) = extractProducts xs ++ extractProducts ys := by
  have hf : extractFields f = none := by
    rw [extractFields, if_pos h]
  refine ⟨hf, ?_⟩
  rw [extractProducts_eq_filterMap, List.filterMap_append, List.filterMap_cons]
  rw [show processItem (ItemNode.node f) = none from by simp [processItem, evalItem, hf]]
  rw [← extractProducts_eq_filterMap, ← extractProducts_eq_filterMap]

/-- **C7 witness**: the sponsored sample item produces no record even though
all its fields would validate. -/
theorem C7_witness :
    sponsoredFields.sponsored = true ∧
    extractFields sponsoredFields = none ∧
    extractProducts ([] ++ ItemNode.node sponsoredFields :: []) =
      extractProducts [] ++ extractProducts [] :=
  ⟨by decide, (C7_sponsored_skipped sponsoredFields [] [] (by decide)).1,
    (C7_sponsored_skipped sponsoredFields [] [] (by decide)).2⟩

/-- **C1**: for a non-sponsored item node reaching the validation step, a
record is pushed to the output array iff the resolved title is non-empty,
the composed price is strictly positive, the resolved (normalized) permalink
is present and non-empty, and the resolved thumbnail is present and
non-empty; and every emitted record's title has at most 200 characters. -/
theorem C1_record_emission (f : ItemFields) (h : f.sponsored = false) :
    ((extractFields f).isSome = true ↔
      (resolveTitle f ≠ "" ∧
       (∃ p, resolvePrice f = some p ∧ 0 < p) ∧
       (∃ l, normalizeLink (resolvePermalink f) = some l ∧ l ≠ "") ∧
       (∃ u, resolveThumbnail f = some u ∧ u ≠ ""))) ∧
    (∀ r, extractFields f = some r → r.title.length ≤ 200) := by
  rw [extractFields, if_neg (by simp [h])]
  constructor
  · by_cases hc : resolveTitle f ≠ "" ∧ pricePos (resolvePrice f) = true ∧
        optTruthy (normalizeLink (resolvePermalink f)) = true ∧
        optTruthy (resolveThumbnail f) = true
    · rw [if_pos hc]
      simp only [Option.isSome_some, true_iff]
      exact ⟨hc.1, (pricePos_iff _).mp hc.2.1, (optTruthy_iff _).mp hc.2.2.1,
        (optTruthy_iff _).mp hc.2.2.2⟩
    · rw [if_neg hc]
      simp only [Option.isSome_none, Bool.false_eq_true, false_iff]
      rintro ⟨h1, h2, h3, h4⟩
      exact hc ⟨h1, (pricePos_iff _).mpr h2, (optTruthy_iff _).mpr h3,
        (optTruthy_iff _).mpr h4⟩
  · intro r hr
    by_cases hc : resolveTitle f ≠ "" ∧ pricePos (resolvePrice f) = true ∧
        optTruthy (normalizeLink (resolvePermalink f)) = true ∧
        optTruthy (resolveThumbnail f) = true
    · rw [if_pos hc] at hr
      injection hr with hr'
      subst hr'
      exact jsSubstring_length_le _ _
    · rw [if_neg hc] at hr
      exact absurd hr (by simp)

/-- **C1 witness**: the sample item is not sponsored, so the emission
equivalence and the title cap hold for it. -/
theorem C1_witness :
    sampleFields.sponsored = false ∧
    (((extractFields sampleFields).isSome = true ↔
      (resolveTitle sampleFields ≠ "" ∧
       (∃ p, resolvePrice sampleFields = some p ∧ 0 < p) ∧
       (∃ l, normalizeLink (resolvePermalink sampleFields) = some l ∧ l ≠ "") ∧
       (∃ u, resolveThumbnail sampleFields = some u ∧ u ≠ ""))) ∧
     (∀ r, extractFields sampleFields = some r → r.title.length ≤ 200)) :=
  ⟨by decide, C1_record_emission sampleFields (by decide)⟩

/-- **C3**: a resolved permalink that is a relative path (it begins with a
slash, as in `/item/123`) is rewritten to an absolute URL by prefixing the
canonical site origin, and an already-absolute `http://`/`https://` link
passes through entirely unchanged. -/
theorem C3_permalink_normalization (s : String) :
    (strStartsWith s "/" = true → normalizeLink (some s) = some (mlOrigin ++ s)) ∧
    ((strStartsWith s "http://" = true ∨ strStartsWith s "https://" = true) →
      normalizeLink (some s) = some s) := by
  constructor
  · intro h
    have h' : startsWithList s.data ['/'] = true := h
    obtain ⟨t, hdata, -⟩ := (startsWithList_cons_iff _ _ _).mp h'
    have hne : s ≠ "" := by
      intro he
      rw [(str_eq_empty_iff s).mp he] at hdata
      exact List.noConfusion hdata
    have hnh : strStartsWith s "http" = false := by
      cases hsw : strStartsWith s "http" with
      | false => rfl
      | true =>
        exfalso
        have hsw' : startsWithList s.data ('h' :: ['t', 't', 'p']) = true := hsw
        obtain ⟨t', ht', -⟩ := (startsWithList_cons_iff _ _ _).mp hsw'
        rw [hdata] at ht'
        injection ht' with hh _
        exact absurd hh (by decide)
    rw [normalizeLink, if_pos ⟨hne, hnh⟩]
  · intro h
    have hh : strStartsWith s "http" = true := by
      rcases h with h | h
      · exact startsWithList_of_append s.data ("http" : String).data ("://" : String).data h
      · exact startsWithList_of_append s.data ("http" : String).data ("s://" : String).data h
    rw [normalizeLink, if_neg]
    rintro ⟨-, hfalse⟩
    rw [hh] at hfalse
    exact absurd hfalse (by simp)

/-- **C3 witness**: `/item/123` is prefixed with the canonical origin, and
an absolute `https://` link is returned unchanged. -/
theorem C3_witness :
    strStartsWith "/item/123" "/" = true ∧
    normalizeLink (some "/item/123") = some "https://www.mercadolivre.com.br/item/123" ∧
    strStartsWith "https://example.com/x" "https://" = true ∧
    normalizeLink (some "https://example.com/x") = some "https://example.com/x" :=
  ⟨by decide, (C3_permalink_normalization "/item/123").1 (by decide),
   by decide, (C3_permalink_normalization "https://example.com/x").2 (Or.inr (by decide))⟩

/-- **C5 counterexample**: on a page where the only dismissable element is a
visible button matched by the text vocabulary (`"Entendi"`), the dismisser
clicks (dismisses) one element but returns 0, so the returned value is not
the total count of elements dismissed. -/
theorem C5_counterexample :
    (handlePopupsAndOverlays textOnlyPage).clicks = 1 ∧
    (handlePopupsAndOverlays textOnlyPage).popupsFound = 0 ∧
    (handlePopupsAndOverlays textOnlyPage).popupsFound ≠
      (handlePopupsAndOverlays textOnlyPage).clicks := by
  refine ⟨by decide, by decide, by decide⟩

/-- **C5 (amended)**: the dismisser attempts to close every currently-visible
blocking element — it clicks each visible selector-matched catalog element
and each visible text-matched vocabulary button — but the count it returns
covers only the selector-matched dismissals; text-pass clicks are performed
without being counted. -/
theorem C5_dismisser_count (p : PageOracle) :
    (handlePopupsAndOverlays p).popupsFound =
      popupSelectors.countP (fun s => p.selQuery s == SelResult.visible) ∧
    (handlePopupsAndOverlays p).clicks =
      popupSelectors.countP (fun s => p.selQuery s == SelResult.visible) +
        textVocabulary.countP (fun t => p.textButtonVisible t) := by
  constructor
  · exact selectorLoop_eq_countP p popupSelectors
  · rw [show (handlePopupsAndOverlays p).clicks =
        selectorLoop p popupSelectors + textLoop p textVocabulary from rfl]
    rw [selectorLoop_eq_countP, textLoop_eq_countP]

/-- **C9**: a `GET /search` request with a missing or empty `q` receives the
400 client-error response with the explanatory message, and no browser is
launched (hence no navigation attempted) for that request. -/
theorem C9_missing_query (e : ScrapeEnv) :
    handleSearch none e =
      { response := SearchResponse.clientError 400 "Search query parameter \"q\" is required.",
        browserLaunched := false } ∧
    handleSearch (some "") e =
      { response := SearchResponse.clientError 400 "Search query parameter \"q\" is required.",
        browserLaunched := false } := by
  constructor <;> rfl

/-- **C6 counterexample**: under `NODE_ENV = "test"` — a non-production
environment — a pipeline failure (`"boom"` thrown during navigation) yields
the generic detail string, not the underlying error message, refuting
"verbose in every non-production environment". -/
theorem C6_counterexample :
    testEnvBoom.nodeEnv ≠ some "production" ∧
    testEnvBoom.navError = some "boom" ∧
    (handleSearch (some "iPhone") testEnvBoom).response =
      SearchResponse.serverError 500 internalErrMsg "Check server logs" ∧
    "Check server logs" ≠ "boom" := by
  refine ⟨by decide, by decide, by decide, by decide⟩

/-- **C6 (amended)**: on any pipeline failure the response is the single
internal-error object, and its detail is gated on `NODE_ENV` being exactly
`"development"`: verbose (the underlying error message) there, the generic
`"Check server logs"` in every other environment — including non-production
environments other than development. -/
theorem C6_error_gating (e : ScrapeEnv) (q m : String) (hq : q ≠ "") :
    (e.navError = some m →
      (handleSearch (some q) e).response =
        SearchResponse.serverError 500 internalErrMsg (errorDetails e.nodeEnv m) ∧
      (handleSearch (some q) e).browserLaunched = true) ∧
    (e.navError = none → (waitForPageReady e.probe).result = Except.error m →
      (handleSearch (some q) e).response =
        SearchResponse.serverError 500 internalErrMsg (errorDetails e.nodeEnv m)) ∧
    (e.nodeEnv = some "development" → errorDetails e.nodeEnv m = m) ∧
    (e.nodeEnv ≠ some "development" → errorDetails e.nodeEnv m = "Check server logs") := by
  have hqt : queryTruthy (some q) = true := by
    simp [queryTruthy, hq]
  refine ⟨?_, ?_, ?_, ?_⟩
  · intro hnav
    rw [handleSearch, if_neg (by simp [hqt])]
    simp [hnav]
  · intro hnav hres
    rw [handleSearch, if_neg (by simp [hqt])]
    simp only [hnav, hres]
  · intro hd
    rw [errorDetails, if_pos hd]
  · intro hd
    rw [errorDetails, if_neg hd]

/-- **C6 witness**: with `NODE_ENV = "test"` and a navigation failure
`"boom"`, the response is the 500 object with the generic detail. -/
theorem C6_witness :
    ("iPhone" : String) ≠ "" ∧
    (handleSearch (some "iPhone") testEnvBoom).response =
      SearchResponse.serverError 500 internalErrMsg (errorDetails testEnvBoom.nodeEnv "boom") ∧
    (handleSearch (some "iPhone") testEnvBoom).browserLaunched = true :=
  ⟨by decide,
   ((C6_error_gating testEnvBoom "iPhone" "boom" (by decide)).1 rfl).1,
   ((C6_error_gating testEnvBoom "iPhone" "boom" (by decide)).1 rfl).2⟩

/-- **C2**: price parsing is a deterministic function of the two price
sub-element texts — grouping dots and commas are stripped from the
integer-part text; the fractional-part text defaults to `"00"` when absent;
the two are composed as `integer.fraction` and parsed as a decimal, so
integer part `"1.234"` with fractional part `"56"` yields `1234.56` and a
missing fractional part yields the integer-part-only value; and when the
integer-part text is empty the price is `0`, which the validation step later
rejects. -/
theorem C2_price_parsing (ft ct : String) :
    stripGrouping "1.234" = "1234" ∧
    resolvePriceTexts "1.234" "56" = some (1234.56 : ℚ) ∧
    resolvePriceTexts ft "" = resolvePriceTexts ft "00" ∧
    ((stripGrouping ft).data ≠ [] → (∀ c ∈ (stripGrouping ft).data, c.isDigit = true) →
      ct ≠ "" → (∀ c ∈ ct.data, c.isDigit = true) →
      resolvePriceTexts ft ct =
        some ((digitsToNat (stripGrouping ft).data : ℚ) +
          (digitsToNat ct.data : ℚ) / (10 : ℚ) ^ ct.data.length)) ∧
    ((stripGrouping ft).data ≠ [] → (∀ c ∈ (stripGrouping ft).data, c.isDigit = true) →
      resolvePriceTexts ft "" = some ((digitsToNat (stripGrouping ft).data : ℚ))) ∧
    resolvePriceTexts "" ct = some 0 ∧
    (∀ f : ItemFields, f.fractionText = "" → extractFields f = none) := by
  have hcompose : ∀ ct' : String, (stripGrouping ft).data ≠ [] →
      (∀ c ∈ (stripGrouping ft).data, c.isDigit = true) →
      ct' ≠ "" → (∀ c ∈ ct'.data, c.isDigit = true) →
      resolvePriceTexts ft ct' =
        some ((digitsToNat (stripGrouping ft).data : ℚ) +
          (digitsToNat ct'.data : ℚ) / (10 : ℚ) ^ ct'.data.length) := by
    intro ct' h1 h2 hct hcd
    have hj : jsOrStr ct' "00" = ct' := by
      rw [jsOrStr, if_neg hct]
    have := resolvePriceTexts_digits ft ct' h1 h2 (by rw [hj]; exact hcd)
    rw [hj] at this
    exact this
  refine ⟨by decide, ?_, ?_, hcompose ct, ?_, ?_, ?_⟩
  · have h := resolvePriceTexts_digits "1.234" "56" (by decide) (by decide) (by decide)
    rw [h, Option.some_inj]
    rw [show digitsToNat (stripGrouping "1.234").data = 1234 from by decide]
    rw [show digitsToNat (jsOrStr "56" "00").data = 56 from by decide]
    rw [show (jsOrStr "56" "00").data.length = 2 from by decide]
    norm_num
  · rfl
  · intro h1 h2
    have h := resolvePriceTexts_digits ft "" h1 h2 (by decide)
    rw [h, Option.some_inj]
    rw [show digitsToNat (jsOrStr "" "00").data = 0 from by decide]
    rw [show (jsOrStr "" "00").data.length = 2 from by decide]
    norm_num
  · rw [resolvePriceTexts]
    rw [if_pos (by decide)]
  · intro f hf
    rw [extractFields]
    by_cases hs : f.sponsored
    · rw [if_pos hs]
    · rw [if_neg hs, if_neg]
      rintro ⟨-, hp, -⟩
      rw [resolvePrice, hf] at hp
      rw [show resolvePriceTexts "" f.centsText = some 0 from by
        rw [resolvePriceTexts]; rw [if_pos (by decide)]] at hp
      norm_num [pricePos] at hp

/-- **C2 witness**: the composition hypotheses hold at the sample texts
`"1.234"`/`"56"`, and the corresponding parses are produced. -/
theorem C2_witness :
    ((stripGrouping "1.234").data ≠ [] ∧ (∀ c ∈ (stripGrouping "1.234").data, c.isDigit = true) ∧
     ("56" : String) ≠ "" ∧ (∀ c ∈ ("56" : String).data, c.isDigit = true)) ∧
    resolvePriceTexts "1.234" "56" =
      some ((digitsToNat (stripGrouping "1.234").data : ℚ) +
        (digitsToNat ("56" : String).data : ℚ) / (10 : ℚ) ^ ("56" : String).data.length) ∧
    resolvePriceTexts "1.234" "" = some ((digitsToNat (stripGrouping "1.234").data : ℚ)) :=
  ⟨⟨by decide, by decide, by decide, by decide⟩,
   (C2_price_parsing "1.234" "56").2.2.2.1 (by decide) (by decide) (by decide) (by decide),
   (C2_price_parsing "1.234" "56").2.2.2.2.1 (by decide) (by decide)⟩

/-- **C4**: the readiness probe makes at most 3 attempts by default, every
selector wait it issues carries the 30s container timeout or the 10s item
timeout, every inter-attempt delay is the fixed 2s or 3s constant (not
exponential); if the item count is zero on every attempt up to the maximum
it terminates by throwing the fatal error — and the handler then returns the
internal-error response, so no extraction result is served; if items are
first found on attempt `k ≤ 3` it returns successfully on that attempt. -/
theorem C4_readiness_probe (env : Nat → AttemptOutcome) (k : Nat) (e : ScrapeEnv) :
    containerWaitMs = 30000 ∧ itemWaitMs = 10000 ∧
    noProductsDelayMs = 2000 ∧ retryDelayMs = 3000 ∧
    (waitForPageReady env).attempts ≤ 3 ∧
    (∀ w ∈ (waitForPageReady env).waits,
      w = (resultsContainerSelector, containerWaitMs) ∨ w = (itemSelector, itemWaitMs)) ∧
    (∀ d ∈ (waitForPageReady env).delays, d = noProductsDelayMs ∨ d = retryDelayMs) ∧
    ((∀ j, 1 ≤ j → j ≤ 3 → itemsFound (env j) = 0) →
      ((waitForPageReady env).result = Except.error probeFailMsg ∧
       (e.navError = none → e.probe = env →
         (handleSearch (some "tv") e).response =
           SearchResponse.serverError 500 internalErrMsg (errorDetails e.nodeEnv probeFailMsg)))) ∧
    (1 ≤ k → k ≤ 3 → 0 < itemsFound (env k) →
      (∀ j, 1 ≤ j → j < k → itemsFound (env j) = 0) →
      (waitForPageReady env).result = Except.ok k) := by
  refine ⟨rfl, rfl, rfl, rfl, probeLoop_attempts_le env 3 1,
    probeLoop_waits_mem env 3 1, probeLoop_delays_mem env 3 1, ?_, ?_⟩
  · intro hall
    have hres : (waitForPageReady env).result = Except.error probeFailMsg :=
      probeLoop_fail env 3 1 (fun j hj1 hj2 => hall j hj1 (by omega))
    refine ⟨hres, ?_⟩
    intro hnav hprobe
    have hq : queryTruthy (some "tv") = true := rfl
    rw [handleSearch, if_neg (by simp [hq])]
    simp only [hnav, hprobe, hres]
  · intro h1 h2 h3 h4
    exact probeLoop_success env 3 1 k h1 (by omega) h3 h4

/-- **C4 witness**: on a page that never shows an item the probe fails after
its attempts and the handler answers with the internal error; with items
first visible on attempt 2 the probe succeeds on attempt 2. -/
theorem C4_witness :
    ((waitForPageReady (fun _ => AttemptOutcome.itemCount 0)).result =
        Except.error probeFailMsg ∧
     (handleSearch (some "tv") emptyPageEnv).response =
        SearchResponse.serverError 500 internalErrMsg "Check server logs") ∧
    (waitForPageReady secondTryProbe).result = Except.ok 2 := by
  constructor
  · obtain ⟨-, -, -, -, -, -, -, h8, -⟩ :=
      C4_readiness_probe (fun _ => AttemptOutcome.itemCount 0) 1 emptyPageEnv
    obtain ⟨ha, hb⟩ := h8 (fun j _ _ => rfl)
    exact ⟨ha, hb rfl rfl⟩
  · obtain ⟨-, -, -, -, -, -, -, -, h9⟩ :=
      C4_readiness_probe secondTryProbe 2 emptyPageEnv
    exact h9 (by omega) (by omega) (by decide)
      (fun j hj1 hj2 => by
        have hj : j = 1 := by omega
        subst hj
        decide)

end MLFinder
